import Mathlib

/-
  Verification of the measurement pipeline in
  src/lib/pictureProcessing.svelte.ts (Gridfinity-Generator).

  The vision primitives (grayscale, blur, Canny, thresholding, morphology,
  contour tracing, polygon approximation) are trusted external collaborators:
  they are modelled as opaque inputs (the traced contour lists, and a
  VisionLib record holding arcLength / approxPolyDP).  Everything the
  pipeline itself computes - area filtering, candidate selection,
  calibration, unit conversion, result assembly - is embedded directly
  from the source, with JavaScript numbers modelled as rationals.
-/

namespace GridfinityMeasure

/-- Integer pixel coordinates, as produced by contour tracing. -/
abbrev Pt := ℤ × ℤ

/-- A contour: an ordered, closed sequence of integer points. -/
abbrev Contour := List Pt

/-! Constants, from the top of pictureProcessing.svelte.ts. -/

def MIN_CONTOUR_AREA : ℚ := 10000

def A4_WIDTH : ℚ := 210

def A4_HEIGHT : ℚ := 297

/-- The constant A4_ASPECT_RATIO = A4_WIDTH / A4_HEIGHT (about 0.707). -/
def a4AspectQ : ℚ := A4_WIDTH / A4_HEIGHT

def ASPECT_RATIO_TOLERANCE : ℚ := 15 / 100

def CONTOUR_APPROX_EPSILON : ℚ := 2 / 100

def OBJECT_MIN_AREA : ℚ := 1000

/-- Cyclic cross-product sum for the shoelace formula: given the first point
of the contour, sums x_i * y_(i+1) - x_(i+1) * y_i over consecutive pairs,
wrapping from the last point back to the first. -/
def crossTo (first : Pt) : List Pt → ℤ
  | [] => 0
  | [q] => q.1 * first.2 - first.1 * q.2
  | q :: r :: rest => (q.1 * r.2 - r.1 * q.2) + crossTo first (r :: rest)

/-- cv.contourArea: absolute shoelace area of the polygon spanned by the
contour points. -/
def contourArea (c : Contour) : ℚ :=
  match c with
  | [] => 0
  | p :: _ => |((crossTo p c : ℤ) : ℚ)| / 2

/-- An axis-aligned rectangle {x, y, width, height}. -/
structure Rect where
  x : ℤ
  y : ℤ
  width : ℤ
  height : ℤ
deriving DecidableEq, Repr

/-- cv.boundingRect on a point set: upright rectangle with inclusive pixel
extents, so width = maxX - minX + 1 (OpenCV convention). -/
def boundingRect : Contour → Rect
  | [] => ⟨0, 0, 0, 0⟩
  | p :: ps =>
      let minX := ps.foldl (fun m q => min m q.1) p.1
      let maxX := ps.foldl (fun m q => max m q.1) p.1
      let minY := ps.foldl (fun m q => min m q.2) p.2
      let maxY := ps.foldl (fun m q => max m q.2) p.2
      ⟨minX, minY, maxX - minX + 1, maxY - minY + 1⟩

/-- Orientation-independent aspect ratio of a w by h rectangle:
Math.min(w, h) / Math.max(w, h), as computed in the sheet-locating loops. -/
def aspectOf (w h : ℤ) : ℚ :=
  ((min w h : ℤ) : ℚ) / ((max w h : ℤ) : ℚ)

/-- The aspect-ratio acceptance test of the sheet loops (lines 167-170 and
371-374): the ratio is within ASPECT_RATIO_TOLERANCE of A4_ASPECT_RATIO or
of 1 / A4_ASPECT_RATIO. -/
def sheetAspectOk (w h : ℤ) : Bool :=
  decide (|aspectOf w h - a4AspectQ| < ASPECT_RATIO_TOLERANCE ∨
          |aspectOf w h - 1 / a4AspectQ| < ASPECT_RATIO_TOLERANCE)

/-- The trusted polygon primitives used by the sheet loop: cv.arcLength and
cv.approxPolyDP, treated as an opaque external library with unspecified
(but deterministic) behaviour. -/
structure VisionLib where
  arcLength : Contour → ℚ
  approxPolyDP : Contour → ℚ → Contour

/-- The polygon approximation as the code calls it:
cv.approxPolyDP(contour, approx, CONTOUR_APPROX_EPSILON * peri, true) with
peri = cv.arcLength(contour, true). -/
def approxOf (V : VisionLib) (c : Contour) : Contour :=
  V.approxPolyDP c (CONTOUR_APPROX_EPSILON * V.arcLength c)

/-- The per-contour candidate test of the sheet-locating loop (both in
detectA4Sheet and detectObjectOnA4): skip if area < MIN_CONTOUR_AREA,
approximate to a polygon, require exactly 4 vertices, then require the
bounding-rect aspect ratio to pass sheetAspectOk. -/
def isSheetCandidate (V : VisionLib) (c : Contour) : Bool :=
  if contourArea c < MIN_CONTOUR_AREA then false
  else
    let approx := approxOf V c
    if approx.length = 4 then
      let rect := boundingRect approx
      sheetAspectOk rect.width rect.height
    else false

/-- One step of the largest-so-far selection loop: the accumulator holds
(best, maxArea) and is replaced only when the candidate test passes and the
area is strictly greater than maxArea. -/
def selStep {α : Type} (p : α → Bool) (f : α → ℚ) (acc : Option α × ℚ) (x : α) :
    Option α × ℚ :=
  if p x = true ∧ acc.2 < f x then (some x, f x) else acc

/-- The selection loop, started from (null, 0) as in the source. -/
def selectBest {α : Type} (p : α → Bool) (f : α → ℚ) (xs : List α) : Option α :=
  (xs.foldl (selStep p f) (none, 0)).1

/-- Specification-side selector: the first element attaining the maximum
value of f, written independently of the loop (following the words of the
spec: largest area wins, first encountered wins at equal maximum). -/
def firstMaxBy {α : Type} (f : α → ℚ) : List α → Option α
  | [] => none
  | x :: xs =>
    match firstMaxBy f xs with
    | none => some x
    | some y => if f x < f y then some y else some x

/-- The sheet-locating loop of detectA4Sheet (lines 146-181): the winner is
the original contour (bestContour = contour.clone()). -/
def selectSheetContour (V : VisionLib) (cs : List Contour) : Option Contour :=
  selectBest (isSheetCandidate V) contourArea cs

/-- The sheet-locating loop of detectObjectOnA4 (lines 355-385): identical
filter and area comparison, but the winner stored is the approximated
polygon (a4Contour = approx.clone()). -/
def selectSheetApprox (V : VisionLib) (cs : List Contour) : Option Contour :=
  (selectBest (isSheetCandidate V) contourArea cs).map (approxOf V)

/-- Calibration (lines 416-422): warpedWidth/warpedHeight are the cropped
region's pixel dimensions; isLandscape = width > height;
a4WidthInImage = isLandscape ? width : height;
a4RealWidth = isLandscape ? A4_HEIGHT : A4_WIDTH;
pixelsPerMm = a4WidthInImage / a4RealWidth. -/
def pixelsPerMm (w h : ℤ) : ℚ :=
  let a4WidthInImage : ℚ := if h < w then (w : ℚ) else (h : ℚ)
  let a4RealWidth : ℚ := if h < w then A4_HEIGHT else A4_WIDTH
  a4WidthInImage / a4RealWidth

/-- minAreaThreshold = Math.min(OBJECT_MIN_AREA, warpedImageArea * 0.005)
(line 521), where warpedImageArea = warped.cols * warped.rows. -/
def minAreaThreshold (cols rows : ℤ) : ℚ :=
  min OBJECT_MIN_AREA (((cols * rows : ℤ) : ℚ) * (5 / 1000))

/-- maxAreaThreshold = warpedImageArea * 0.9 (line 522). -/
def maxAreaThreshold (cols rows : ℤ) : ℚ :=
  ((cols * rows : ℤ) : ℚ) * (9 / 10)

/-- The object filter of the Measurer loop (line 531):
area > minAreaThreshold && area < maxAreaThreshold (strict on both sides). -/
def objectQualifies (minT maxT area : ℚ) : Bool :=
  decide (minT < area ∧ area < maxT)

/-- The object-selection loop of detectObjectOnA4 (lines 524-538): among the
contours traced on the closed mask, keep the qualifying one with the
largest area (strictly-greater update, so the first wins ties). -/
def selectObject (cols rows : ℤ) (cs : List Contour) : Option Contour :=
  selectBest
    (fun c => objectQualifies (minAreaThreshold cols rows) (maxAreaThreshold cols rows)
      (contourArea c))
    contourArea cs

/-- Math.round: rounds half toward positive infinity. -/
def jsRound (q : ℚ) : ℤ := ⌊q + 1 / 2⌋

/-- Math.round(v * 10) / 10: round to one decimal place. -/
def round1 (q : ℚ) : ℚ := ((jsRound (q * 10) : ℤ) : ℚ) / 10

/-- Which image the result's imageUrl shows: the annotated result canvas, or
the closed-mask debug canvas (the no-object branch, line 623). -/
inductive ImageRef
  | annotated
  | closedDebug
deriving DecidableEq, Repr

/-- The numeric and image content of an ObjectMeasurement (the debugImages
record always carries all six stage images and is not modelled further). -/
structure ObjectMeasurement where
  widthMm : ℚ
  heightMm : ℚ
  areaMm2 : ℚ
  imageUrl : ImageRef
deriving DecidableEq, Repr

/-- The inputs of one detectObjectOnA4 run.  cvLoaded models the truthiness
of the cv module handle; imageProvided the truthiness of imageDataUrl
(false for null or the empty string); decodeOk whether loadImageToMat
resolves; sheetContours the contours traced on the Canny edge map;
maskContours the contours traced on the closed fused mask of the cropped
region. -/
structure DetectInput where
  cvLoaded : Bool
  imageProvided : Bool
  decodeOk : Bool
  lib : VisionLib
  sheetContours : List Contour
  maskContours : List Contour

/-- detectObjectOnA4 (lines 316-666), as a pure function of its inputs:
guard clauses, sheet selection, bounding-rect crop, calibration, object
selection on the mask contours, and result assembly. -/
def detectObjectOnA4 (inp : DetectInput) : Option ObjectMeasurement :=
  if !inp.cvLoaded then none
  else if !inp.imageProvided then none
  else if !inp.decodeOk then none
  else
    match selectSheetApprox inp.lib inp.sheetContours with
    | none => none
    | some a4 =>
      let a4Rect := boundingRect a4
      let ppm := pixelsPerMm a4Rect.width a4Rect.height
      match selectObject a4Rect.width a4Rect.height inp.maskContours with
      | none => some ⟨0, 0, 0, ImageRef.closedDebug⟩
      | some obj =>
        let r := boundingRect obj
        some ⟨round1 ((r.width : ℚ) / ppm),
              round1 ((r.height : ℚ) / ppm),
              round1 (contourArea obj / (ppm * ppm)),
              ImageRef.annotated⟩

/-! Helper lemmas about the selection loop. -/

lemma firstMaxBy_mem {α : Type} (f : α → ℚ) :
    ∀ (xs : List α) (y : α), firstMaxBy f xs = some y → y ∈ xs := by
  intro xs
  induction xs with
  | nil => intro y h; simp [firstMaxBy] at h
  | cons x xs ih =>
    intro y h
    simp only [firstMaxBy] at h
    cases hfm : firstMaxBy f xs with
    | none =>
      rw [hfm] at h
      simp only [Option.some.injEq] at h
      exact h ▸ List.mem_cons_self x xs
    | some z =>
      rw [hfm] at h
      dsimp only at h
      by_cases hlt : f x < f z
      · rw [if_pos hlt] at h
        injection h with h
        exact h ▸ List.mem_cons_of_mem _ (ih z hfm)
      · rw [if_neg hlt] at h
        injection h with h
        exact h ▸ List.mem_cons_self x xs

lemma foldl_selStep {α : Type} (p : α → Bool) (f : α → ℚ) :
    ∀ (xs : List α) (b : Option α) (m : ℚ),
      (xs.foldl (selStep p f) (b, m)).1 =
        match firstMaxBy f (xs.filter p) with
        | none => b
        | some y => if m < f y then some y else b := by
  intro xs
  induction xs with
  | nil => intro b m; simp [firstMaxBy]
  | cons x xs ih =>
    intro b m
    rw [List.foldl_cons]
    by_cases hp : p x = true
    · rw [List.filter_cons_of_pos hp]
      by_cases hm : m < f x
      · have hstep : selStep p f (b, m) x = (some x, f x) := by
          simp [selStep, hp, hm]
        rw [hstep, ih]
        simp only [firstMaxBy]
        cases hfm : firstMaxBy f (xs.filter p) with
        | none => simp [hm]
        | some y =>
          dsimp only
          by_cases hxy : f x < f y
          · rw [if_pos hxy]
            simp [hxy, lt_trans hm hxy]
          · rw [if_neg hxy]
            simp [hxy, hm]
      · have hstep : selStep p f (b, m) x = (b, m) := by
          simp [selStep, hm]
        rw [hstep, ih]
        simp only [firstMaxBy]
        cases hfm : firstMaxBy f (xs.filter p) with
        | none => simp [hm]
        | some y =>
          dsimp only
          by_cases hxy : f x < f y
          · rw [if_pos hxy]
          · rw [if_neg hxy]
            have h1 : ¬ m < f y := by
              push_neg at hxy hm ⊢
              exact le_trans hxy hm
            simp [h1, hm]
    · rw [List.filter_cons_of_neg hp]
      have hstep : selStep p f (b, m) x = (b, m) := by
        simp [selStep, hp]
      rw [hstep, ih]

lemma selectBest_eq_firstMaxBy {α : Type} (p : α → Bool) (f : α → ℚ)
    (hpos : ∀ x, p x = true → 0 < f x) (xs : List α) :
    selectBest p f xs = firstMaxBy f (xs.filter p) := by
  unfold selectBest
  rw [foldl_selStep]
  cases hfm : firstMaxBy f (xs.filter p) with
  | none => rfl
  | some y =>
    have hy : y ∈ xs.filter p := firstMaxBy_mem f _ y hfm
    have hpy : p y = true := (List.mem_filter.mp hy).2
    simp [hpos y hpy]

lemma selectBest_some {α : Type} (p : α → Bool) (f : α → ℚ) (xs : List α) (y : α)
    (h : selectBest p f xs = some y) : y ∈ xs ∧ p y = true := by
  unfold selectBest at h
  rw [foldl_selStep] at h
  cases hfm : firstMaxBy f (xs.filter p) with
  | none => rw [hfm] at h; simp at h
  | some z =>
    rw [hfm] at h
    dsimp only at h
    have hz : z ∈ xs.filter p := firstMaxBy_mem f _ z hfm
    by_cases h0 : (0 : ℚ) < f z
    · rw [if_pos h0] at h
      injection h with h
      exact h ▸ ⟨(List.mem_filter.mp hz).1, (List.mem_filter.mp hz).2⟩
    · rw [if_neg h0] at h
      simp at h

/-! Helper lemmas about geometry and rounding. -/

lemma foldl_min_le_foldl_max (g : Pt → ℤ) :
    ∀ (ps : List Pt) (a b : ℤ), a ≤ b →
      ps.foldl (fun m q => min m (g q)) a ≤ ps.foldl (fun m q => max m (g q)) b := by
  intro ps
  induction ps with
  | nil => intro a b h; exact h
  | cons q ps ih =>
    intro a b h
    simp only [List.foldl_cons]
    exact ih _ _ (le_trans (min_le_left _ _) (le_trans h (le_max_left _ _)))

lemma boundingRect_dims_pos (c : Contour) (hc : c ≠ []) :
    1 ≤ (boundingRect c).width ∧ 1 ≤ (boundingRect c).height := by
  match c with
  | [] => exact absurd rfl hc
  | p :: ps =>
    simp only [boundingRect]
    constructor
    · have := foldl_min_le_foldl_max Prod.fst ps p.1 p.1 le_rfl
      omega
    · have := foldl_min_le_foldl_max Prod.snd ps p.2 p.2 le_rfl
      omega

lemma contourArea_nonneg (c : Contour) : 0 ≤ contourArea c := by
  match c with
  | [] => exact le_refl 0
  | p :: ps => simp only [contourArea]; positivity

lemma ne_nil_of_contourArea_pos (c : Contour) (h : 0 < contourArea c) : c ≠ [] := by
  intro hnil
  rw [hnil] at h
  simp [contourArea] at h

lemma pixelsPerMm_pos (w h : ℤ) (hw : 1 ≤ w) (hh : 1 ≤ h) :
    0 < pixelsPerMm w h := by
  have hw0 : (0 : ℚ) < (w : ℚ) := by exact_mod_cast lt_of_lt_of_le Int.zero_lt_one hw
  have hh0 : (0 : ℚ) < (h : ℚ) := by exact_mod_cast lt_of_lt_of_le Int.zero_lt_one hh
  simp only [pixelsPerMm, A4_HEIGHT, A4_WIDTH]
  by_cases hl : h < w
  · rw [if_pos hl, if_pos hl]
    positivity
  · rw [if_neg hl, if_neg hl]
    positivity

lemma round1_nonneg (q : ℚ) (hq : 0 ≤ q) : 0 ≤ round1 q := by
  unfold round1 jsRound
  have hfl : (0 : ℤ) ≤ ⌊q * 10 + 1 / 2⌋ := Int.floor_nonneg.mpr (by linarith)
  have : (0 : ℚ) ≤ ((⌊q * 10 + 1 / 2⌋ : ℤ) : ℚ) := by exact_mod_cast hfl
  linarith

lemma isSheetCandidate_iff (V : VisionLib) (c : Contour) :
    isSheetCandidate V c = true ↔
      (MIN_CONTOUR_AREA ≤ contourArea c ∧ (approxOf V c).length = 4 ∧
       sheetAspectOk (boundingRect (approxOf V c)).width
         (boundingRect (approxOf V c)).height = true) := by
  simp only [isSheetCandidate]
  split_ifs with h1 h2
  · simp only [Bool.false_eq_true, false_iff]
    intro hcontra
    exact absurd hcontra.1 (not_le.mpr h1)
  · simp [not_lt.mp h1, h2]
  · simp only [Bool.false_eq_true, false_iff]
    intro hcontra
    exact absurd hcontra.2.1 h2

/-! Concrete inputs used by witnesses. -/

/-- A concrete 4-point sheet contour: the corners of a 210 by 297 axis
rectangle (shoelace area 62370, bounding rect 211 by 298). -/
def sheetQuad : Contour := [(0, 0), (210, 0), (210, 297), (0, 297)]

/-- A concrete object contour: a 30 by 30 square (area 900). -/
def objQuad : Contour := [(0, 0), (30, 0), (30, 30), (0, 30)]

/-- A concrete vision library whose polygon approximation is the identity
(adequate for witnesses: any deterministic behaviour is allowed). -/
def idLib : VisionLib := ⟨fun _ => 0, fun c _ => c⟩

/-- A contour whose area is exactly the min threshold of a 200 by 200
region: min(1000, 40000 * 0.005) = 200 = area of a 20 by 10 rectangle. -/
def minBoundary : Contour := [(0, 0), (20, 0), (20, 10), (0, 10)]

/-- A contour whose area is exactly the max threshold of a 200 by 200
region: 40000 * 0.9 = 36000 = area of a 200 by 180 rectangle. -/
def maxBoundary : Contour := [(0, 0), (200, 0), (200, 180), (0, 180)]

/-! The claims. -/

/-- C1 (code bug): the calibration code at lines 416-422 divides the longer
pixel dimension by 297 only in the landscape branch; in the portrait branch
it divides the longer pixel dimension (the height) by A4_WIDTH = 210,
although its own comment says the divisor is the A4 longer side.  At a
297 by 210 (landscape) region the scale is 297/297 = 1 as the claim states,
but at the same region rotated 90 degrees (210 by 297, portrait) the code
yields 297/210, not 297/297, so the scale is not rotation-invariant. -/
theorem claimC1_portrait_calibration_bug :
    pixelsPerMm 297 210 = 297 / A4_HEIGHT ∧
    pixelsPerMm 210 297 = 297 / A4_WIDTH ∧
    pixelsPerMm 210 297 ≠ 297 / A4_HEIGHT ∧
    pixelsPerMm 210 297 ≠ pixelsPerMm 297 210 := by
  refine ⟨?_, ?_, ?_, ?_⟩ <;>
    · simp only [pixelsPerMm, A4_HEIGHT, A4_WIDTH]
      norm_num

/-- C2 (counterexample): in a 200 by 200 region the thresholds are 200 and
36000; a contour of area exactly 200 and a contour of area exactly 36000
both fail the filter at line 531, refuting the claimed inclusive bounds. -/
theorem claimC2_counterexample :
    contourArea minBoundary = minAreaThreshold 200 200 ∧
    objectQualifies (minAreaThreshold 200 200) (maxAreaThreshold 200 200)
      (contourArea minBoundary) = false ∧
    contourArea maxBoundary = maxAreaThreshold 200 200 ∧
    objectQualifies (minAreaThreshold 200 200) (maxAreaThreshold 200 200)
      (contourArea maxBoundary) = false := by
  have hminT : minAreaThreshold 200 200 = 200 := by
    rw [minAreaThreshold, OBJECT_MIN_AREA]
    norm_num
  have hmaxT : maxAreaThreshold 200 200 = 36000 := by
    rw [maxAreaThreshold]
    norm_num
  have hmin : contourArea minBoundary = 200 := by
    simp [contourArea, minBoundary, crossTo]
    norm_num
  have hmax : contourArea maxBoundary = 36000 := by
    simp [contourArea, maxBoundary, crossTo]
    norm_num
  refine ⟨by rw [hmin, hminT], ?_, by rw [hmax, hmaxT], ?_⟩
  · rw [hmin, hminT, hmaxT]
    simp [objectQualifies]
  · rw [hmax, hminT, hmaxT]
    simp [objectQualifies]

/-- C2 (amended): the area bounds of the Measurer loop are exclusive, not
inclusive: a contour qualifies exactly when its area is strictly between
minAreaThreshold and maxAreaThreshold; a contour whose area equals either
threshold does not qualify, and one unit above maxAreaThreshold does not
qualify. -/
theorem claimC2_amended_exclusive_bounds (minT maxT area : ℚ) :
    (objectQualifies minT maxT area = true ↔ (minT < area ∧ area < maxT)) ∧
    objectQualifies minT maxT minT = false ∧
    objectQualifies minT maxT maxT = false ∧
    objectQualifies minT maxT (maxT + 1) = false := by
  refine ⟨by simp [objectQualifies], by simp [objectQualifies], by simp [objectQualifies], ?_⟩
  simp only [objectQualifies, decide_eq_false_iff_not, not_and, not_lt]
  intro _
  linarith

/-- C3: the Measurer computes minArea = min(1000, 0.5 percent of the region
pixel area) and maxArea = 90 percent of the region pixel area, and among
the traced contours whose area passes the bounds filter it selects the one
with the largest area, the first encountered winning at equal maximum. -/
theorem claimC3_thresholds_and_selection (cols rows : ℤ) (hc : 0 ≤ cols) (hr : 0 ≤ rows)
    (cs : List Contour) :
    minAreaThreshold cols rows = min 1000 (((cols * rows : ℤ) : ℚ) * (1 / 200)) ∧
    maxAreaThreshold cols rows = ((cols * rows : ℤ) : ℚ) * (9 / 10) ∧
    selectObject cols rows cs =
      firstMaxBy contourArea
        (cs.filter fun c =>
          objectQualifies (minAreaThreshold cols rows) (maxAreaThreshold cols rows)
            (contourArea c)) := by
  refine ⟨?_, rfl, ?_⟩
  · rw [minAreaThreshold, OBJECT_MIN_AREA]
    norm_num
  · apply selectBest_eq_firstMaxBy
    intro c hpc
    simp only [objectQualifies, decide_eq_true_eq] at hpc
    have hprod : (0 : ℚ) ≤ ((cols * rows : ℤ) : ℚ) := by
      have := mul_nonneg hc hr
      exact_mod_cast this
    have hmin0 : 0 ≤ minAreaThreshold cols rows := by
      rw [minAreaThreshold, OBJECT_MIN_AREA]
      apply le_min (by norm_num)
      positivity
    linarith [hpc.1]

/-- C3 witness at a concrete region and contour list. -/
theorem claimC3_witness :
    minAreaThreshold 200 200 = min 1000 (((200 * 200 : ℤ) : ℚ) * (1 / 200)) ∧
    maxAreaThreshold 200 200 = ((200 * 200 : ℤ) : ℚ) * (9 / 10) ∧
    selectObject 200 200 [objQuad] =
      firstMaxBy contourArea
        ([objQuad].filter fun c =>
          objectQualifies (minAreaThreshold 200 200) (maxAreaThreshold 200 200)
            (contourArea c)) :=
  claimC3_thresholds_and_selection 200 200 (by decide) (by decide) [objQuad]

/-- C4: a contour is a sheet candidate exactly when its enclosed area is at
least MIN_CONTOUR_AREA = 10000, its polygon approximation (at tolerance
CONTOUR_APPROX_EPSILON = 2 percent of perimeter, built into approxOf) has
exactly 4 vertices, and its bounding-rect aspect ratio is within 0.15 of
210/297 in either orientation; both sheet loops select the candidate with
the largest enclosed area, the first encountered winning ties
(detectA4Sheet keeps the contour, detectObjectOnA4 its approximation). -/
theorem claimC4_sheet_candidate_and_selection (V : VisionLib) (cs : List Contour) :
    (∀ c, isSheetCandidate V c = true ↔
        (MIN_CONTOUR_AREA ≤ contourArea c ∧ (approxOf V c).length = 4 ∧
         (|aspectOf (boundingRect (approxOf V c)).width (boundingRect (approxOf V c)).height -
             a4AspectQ| < ASPECT_RATIO_TOLERANCE ∨
          |aspectOf (boundingRect (approxOf V c)).width (boundingRect (approxOf V c)).height -
             1 / a4AspectQ| < ASPECT_RATIO_TOLERANCE))) ∧
    selectSheetContour V cs = firstMaxBy contourArea (cs.filter (isSheetCandidate V)) ∧
    selectSheetApprox V cs =
      (firstMaxBy contourArea (cs.filter (isSheetCandidate V))).map (approxOf V) := by
  have hpos : ∀ c, isSheetCandidate V c = true → 0 < contourArea c := by
    intro c hcand
    have h1 := ((isSheetCandidate_iff V c).mp hcand).1
    rw [MIN_CONTOUR_AREA] at h1
    linarith
  have hsel : selectBest (isSheetCandidate V) contourArea cs
      = firstMaxBy contourArea (cs.filter (isSheetCandidate V)) :=
    selectBest_eq_firstMaxBy _ _ hpos cs
  refine ⟨?_, hsel, ?_⟩
  · intro c
    rw [isSheetCandidate_iff]
    simp [sheetAspectOk]
  · rw [selectSheetApprox, hsel]

/-- C10: for any bounding rect with positive width and height the aspect
ratio lies in (0, 1], the inverse-orientation disjunct of the acceptance
test can never hold (|ratio - 297/210| is at least 0.414), and the test is
equivalent to the single condition |ratio - 210/297| < 0.15. -/
theorem claimC10_aspect_test_equiv (w h : ℤ) (hw : 0 < w) (hh : 0 < h) :
    (0 < aspectOf w h ∧ aspectOf w h ≤ 1) ∧
    ¬ (|aspectOf w h - 1 / a4AspectQ| < ASPECT_RATIO_TOLERANCE) ∧
    (sheetAspectOk w h = true ↔ |aspectOf w h - a4AspectQ| < ASPECT_RATIO_TOLERANCE) := by
  have hmin : (0 : ℤ) < min w h := lt_min hw hh
  have hmax : (0 : ℤ) < max w h := lt_of_lt_of_le hw (le_max_left _ _)
  have hminq : (0 : ℚ) < ((min w h : ℤ) : ℚ) := by exact_mod_cast hmin
  have hmaxq : (0 : ℚ) < ((max w h : ℤ) : ℚ) := by exact_mod_cast hmax
  have hle : ((min w h : ℤ) : ℚ) ≤ ((max w h : ℤ) : ℚ) := by
    exact_mod_cast min_le_max
  have h1 : 0 < aspectOf w h := div_pos hminq hmaxq
  have h2 : aspectOf w h ≤ 1 := by
    rw [aspectOf, div_le_one hmaxq]
    exact hle
  have hinv : 1 / a4AspectQ = 99 / 70 := by
    rw [a4AspectQ, A4_WIDTH, A4_HEIGHT]
    norm_num
  have h3 : ¬ (|aspectOf w h - 1 / a4AspectQ| < ASPECT_RATIO_TOLERANCE) := by
    intro hcon
    rw [hinv, ASPECT_RATIO_TOLERANCE] at hcon
    rcases abs_lt.mp hcon with ⟨hl, _⟩
    linarith
  refine ⟨⟨h1, h2⟩, h3, ?_⟩
  simp only [sheetAspectOk, decide_eq_true_eq]
  constructor
  · intro hc
    rcases hc with hc | hc
    · exact hc
    · exact absurd hc h3
  · intro hc
    exact Or.inl hc

/-- C10 witness at the concrete rectangle 210 by 297. -/
theorem claimC10_witness :
    ((0 < aspectOf 210 297 ∧ aspectOf 210 297 ≤ 1) ∧
     ¬ (|aspectOf 210 297 - 1 / a4AspectQ| < ASPECT_RATIO_TOLERANCE) ∧
     (sheetAspectOk 210 297 = true ↔
       |aspectOf 210 297 - a4AspectQ| < ASPECT_RATIO_TOLERANCE)) :=
  claimC10_aspect_test_equiv 210 297 (by decide) (by decide)

/-! Helper lemmas for the orchestrator claims. -/

/-- A sheet returned by the selection loop of detectObjectOnA4 is the
4-vertex approximation of a passing candidate, so its bounding rect has
positive dimensions. -/
lemma selected_sheet_dims (V : VisionLib) (cs : List Contour) (a4 : Contour)
    (h : selectSheetApprox V cs = some a4) :
    1 ≤ (boundingRect a4).width ∧ 1 ≤ (boundingRect a4).height := by
  rw [selectSheetApprox] at h
  cases hb : selectBest (isSheetCandidate V) contourArea cs with
  | none => rw [hb] at h; simp at h
  | some c =>
    rw [hb] at h
    simp only [Option.map_some'] at h
    injection h with h
    subst h
    have hcand := (selectBest_some _ _ _ _ hb).2
    have h4 : (approxOf V c).length = 4 := ((isSheetCandidate_iff V c).mp hcand).2.1
    have hne : approxOf V c ≠ [] := by
      intro hnil
      rw [hnil] at h4
      simp at h4
    exact boundingRect_dims_pos _ hne

lemma selected_sheet_ppm_pos (V : VisionLib) (cs : List Contour) (a4 : Contour)
    (h : selectSheetApprox V cs = some a4) :
    0 < pixelsPerMm (boundingRect a4).width (boundingRect a4).height := by
  obtain ⟨hw, hh⟩ := selected_sheet_dims V cs a4 h
  exact pixelsPerMm_pos _ _ hw hh

/-- An object returned by the Measurer loop passed the strict area filter,
so with a nonnegative lower threshold its area is positive and it is a
nonempty contour. -/
lemma selected_object_props (cols rows : ℤ) (cs : List Contour) (obj : Contour)
    (hc : 0 ≤ cols) (hr : 0 ≤ rows)
    (h : selectObject cols rows cs = some obj) :
    0 < contourArea obj ∧ obj ≠ [] := by
  have hq := (selectBest_some _ _ _ _ h).2
  simp only [objectQualifies, decide_eq_true_eq] at hq
  have hprod : (0 : ℚ) ≤ ((cols * rows : ℤ) : ℚ) := by
    have := mul_nonneg hc hr
    exact_mod_cast this
  have hmin0 : 0 ≤ minAreaThreshold cols rows := by
    rw [minAreaThreshold, OBJECT_MIN_AREA]
    apply le_min (by norm_num)
    positivity
  have hpos : 0 < contourArea obj := lt_of_le_of_lt hmin0 hq.1
  exact ⟨hpos, ne_nil_of_contourArea_pos _ hpos⟩

/-! The claims about detectObjectOnA4 as a whole. -/

/-- C5: detectObjectOnA4 returns null exactly when the vision library is
unavailable, no image was provided, decoding failed, or the sheet-locating
loop produced no candidate; for every other input it returns a
MeasurementResult (the vision primitives are modelled as total, so the
catch-all error path coincides with the decode-failure flag). -/
theorem claimC5_unavailable_iff (inp : DetectInput) :
    detectObjectOnA4 inp = none ↔
      (inp.cvLoaded = false ∨ inp.imageProvided = false ∨ inp.decodeOk = false ∨
       selectSheetApprox inp.lib inp.sheetContours = none) := by
  obtain ⟨cv, img, dec, lib, sc, mc⟩ := inp
  simp only [detectObjectOnA4]
  cases cv <;> cases img <;> cases dec <;> simp
  cases hs : selectSheetApprox lib sc with
  | none => simp
  | some a4 =>
    simp only [Option.some.injEq]
    cases ho : selectObject (boundingRect a4).width (boundingRect a4).height mc with
    | none => simp
    | some obj => simp

/-- Evaluation fact shared by the witnesses: the concrete sheet contour is
selected by the detectObjectOnA4 sheet loop (the identity approximation
keeps its 4 points, its area 62370 exceeds 10000, and its 211 by 298
bounding rect has ratio within tolerance of 210/297). -/
lemma sheetQuad_selected : selectSheetApprox idLib [sheetQuad] = some sheetQuad := by
  have hcand : isSheetCandidate idLib sheetQuad = true := by
    simp only [isSheetCandidate, approxOf, idLib, sheetQuad]
    norm_num [contourArea, crossTo, MIN_CONTOUR_AREA, boundingRect, sheetAspectOk,
      aspectOf, a4AspectQ, A4_WIDTH, A4_HEIGHT, ASPECT_RATIO_TOLERANCE, abs_lt]
  have harea : (0 : ℚ) < contourArea sheetQuad := by
    norm_num [contourArea, crossTo, sheetQuad]
  simp only [selectSheetApprox, selectBest, List.foldl, selStep, hcand, true_and]
  rw [if_pos harea]
  simp [approxOf, idLib]

/-- Evaluation fact shared by the witnesses: the concrete 30 by 30 object
contour (area 900) passes the area filter of the 211 by 298 region
(thresholds 314.39 and 56590.2) and is selected. -/
lemma objQuad_selected :
    selectObject (boundingRect sheetQuad).width (boundingRect sheetQuad).height
      [objQuad] = some objQuad := by
  have hb : boundingRect sheetQuad = ⟨0, 0, 211, 298⟩ := by decide
  rw [hb]
  have harea : contourArea objQuad = 900 := by
    simp [contourArea, objQuad, crossTo]
    norm_num
  have hminT : minAreaThreshold 211 298 = 31439 / 100 := by
    rw [minAreaThreshold, OBJECT_MIN_AREA]
    norm_num
  have hmaxT : maxAreaThreshold 211 298 = 282951 / 5 := by
    rw [maxAreaThreshold]
    norm_num
  have hq : objectQualifies (minAreaThreshold 211 298) (maxAreaThreshold 211 298)
      (contourArea objQuad) = true := by
    rw [harea, hminT, hmaxT]
    simp only [objectQualifies, decide_eq_true_eq]
    norm_num
  have hpos : (0 : ℚ) < contourArea objQuad := by
    rw [harea]
    norm_num
  simp only [selectObject, selectBest, List.foldl, selStep, hq, true_and]
  rw [if_pos hpos]

/-- C6: when the guards pass, a sheet is selected, and no mask contour
survives the area filter, detectObjectOnA4 returns the zero-valued
measurement whose image is the closed-mask debug image (not null, not an
error). -/
theorem claimC6_zero_result (inp : DetectInput) (a4 : Contour)
    (hcv : inp.cvLoaded = true) (himg : inp.imageProvided = true)
    (hdec : inp.decodeOk = true)
    (hsheet : selectSheetApprox inp.lib inp.sheetContours = some a4)
    (hobj : selectObject (boundingRect a4).width (boundingRect a4).height
      inp.maskContours = none) :
    detectObjectOnA4 inp = some ⟨0, 0, 0, ImageRef.closedDebug⟩ := by
  simp only [detectObjectOnA4, hcv, himg, hdec, hsheet, hobj, Bool.not_true,
    Bool.false_eq_true, if_false]

/-- C6 witness: concrete run with the sheet found and an empty mask-contour
list, producing the zero-valued closed-mask result. -/
theorem claimC6_witness :
    detectObjectOnA4 ⟨true, true, true, idLib, [sheetQuad], []⟩ =
      some ⟨0, 0, 0, ImageRef.closedDebug⟩ :=
  claimC6_zero_result ⟨true, true, true, idLib, [sheetQuad], []⟩ sheetQuad rfl rfl rfl
    sheetQuad_selected rfl

/-- C8: when the guards pass, a sheet is selected, and an object contour is
selected, the measurement fields are the rounded conversions of the
bounding-rect dimensions and contour area by pixelsPerMm, and all three
are nonnegative. -/
theorem claimC8_measurement_formulas (inp : DetectInput) (a4 obj : Contour)
    (hcv : inp.cvLoaded = true) (himg : inp.imageProvided = true)
    (hdec : inp.decodeOk = true)
    (hsheet : selectSheetApprox inp.lib inp.sheetContours = some a4)
    (hobj : selectObject (boundingRect a4).width (boundingRect a4).height
      inp.maskContours = some obj) :
    detectObjectOnA4 inp =
      some ⟨round1 (((boundingRect obj).width : ℚ) /
              pixelsPerMm (boundingRect a4).width (boundingRect a4).height),
            round1 (((boundingRect obj).height : ℚ) /
              pixelsPerMm (boundingRect a4).width (boundingRect a4).height),
            round1 (contourArea obj /
              (pixelsPerMm (boundingRect a4).width (boundingRect a4).height *
               pixelsPerMm (boundingRect a4).width (boundingRect a4).height)),
            ImageRef.annotated⟩ ∧
    0 ≤ round1 (((boundingRect obj).width : ℚ) /
          pixelsPerMm (boundingRect a4).width (boundingRect a4).height) ∧
    0 ≤ round1 (((boundingRect obj).height : ℚ) /
          pixelsPerMm (boundingRect a4).width (boundingRect a4).height) ∧
    0 ≤ round1 (contourArea obj /
          (pixelsPerMm (boundingRect a4).width (boundingRect a4).height *
           pixelsPerMm (boundingRect a4).width (boundingRect a4).height)) := by
  obtain ⟨hrw, hrh⟩ := selected_sheet_dims inp.lib inp.sheetContours a4 hsheet
  have hppm := selected_sheet_ppm_pos inp.lib inp.sheetContours a4 hsheet
  obtain ⟨hoarea, hone⟩ := selected_object_props _ _ inp.maskContours obj
    (le_trans (by norm_num : (0 : ℤ) ≤ 1) hrw) (le_trans (by norm_num : (0 : ℤ) ≤ 1) hrh) hobj
  obtain ⟨how, hoh⟩ := boundingRect_dims_pos obj hone
  have howq : (0 : ℚ) ≤ ((boundingRect obj).width : ℚ) := by
    exact_mod_cast le_trans (by norm_num : (0 : ℤ) ≤ 1) how
  have hohq : (0 : ℚ) ≤ ((boundingRect obj).height : ℚ) := by
    exact_mod_cast le_trans (by norm_num : (0 : ℤ) ≤ 1) hoh
  refine ⟨?_, ?_, ?_, ?_⟩
  · simp only [detectObjectOnA4, hcv, himg, hdec, hsheet, hobj, Bool.not_true,
      Bool.false_eq_true, if_false]
  · exact round1_nonneg _ (div_nonneg howq (le_of_lt hppm))
  · exact round1_nonneg _ (div_nonneg hohq (le_of_lt hppm))
  · exact round1_nonneg _ (div_nonneg (contourArea_nonneg obj)
      (le_of_lt (mul_pos hppm hppm)))

/-- C7: whenever the sheet loop of detectObjectOnA4 selects a candidate
(which in particular has area at least MIN_CONTOUR_AREA), the calibration
scale is strictly positive, hence nonzero, so the conversions dividing by
it are well-defined. -/
theorem claimC7_calibration_positive (V : VisionLib) (cs : List Contour) (a4 : Contour)
    (h : selectSheetApprox V cs = some a4) :
    0 < pixelsPerMm (boundingRect a4).width (boundingRect a4).height ∧
    pixelsPerMm (boundingRect a4).width (boundingRect a4).height ≠ 0 := by
  have hp := selected_sheet_ppm_pos V cs a4 h
  exact ⟨hp, ne_of_gt hp⟩

/-- C7 witness at the concrete selected sheet. -/
theorem claimC7_witness :
    0 < pixelsPerMm (boundingRect sheetQuad).width (boundingRect sheetQuad).height ∧
    pixelsPerMm (boundingRect sheetQuad).width (boundingRect sheetQuad).height ≠ 0 :=
  claimC7_calibration_positive idLib [sheetQuad] sheetQuad sheetQuad_selected

/-- C8 witness: concrete run with both the sheet and the object selected. -/
theorem claimC8_witness :
    detectObjectOnA4 ⟨true, true, true, idLib, [sheetQuad], [objQuad]⟩ =
      some ⟨round1 (((boundingRect objQuad).width : ℚ) /
              pixelsPerMm (boundingRect sheetQuad).width (boundingRect sheetQuad).height),
            round1 (((boundingRect objQuad).height : ℚ) /
              pixelsPerMm (boundingRect sheetQuad).width (boundingRect sheetQuad).height),
            round1 (contourArea objQuad /
              (pixelsPerMm (boundingRect sheetQuad).width (boundingRect sheetQuad).height *
               pixelsPerMm (boundingRect sheetQuad).width (boundingRect sheetQuad).height)),
            ImageRef.annotated⟩ ∧
    0 ≤ round1 (((boundingRect objQuad).width : ℚ) /
          pixelsPerMm (boundingRect sheetQuad).width (boundingRect sheetQuad).height) ∧
    0 ≤ round1 (((boundingRect objQuad).height : ℚ) /
          pixelsPerMm (boundingRect sheetQuad).width (boundingRect sheetQuad).height) ∧
    0 ≤ round1 (contourArea objQuad /
          (pixelsPerMm (boundingRect sheetQuad).width (boundingRect sheetQuad).height *
           pixelsPerMm (boundingRect sheetQuad).width (boundingRect sheetQuad).height)) :=
  claimC8_measurement_formulas ⟨true, true, true, idLib, [sheetQuad], [objQuad]⟩
    sheetQuad objQuad rfl rfl rfl sheetQuad_selected objQuad_selected

/-! Buffer-lifetime model of detectObjectOnA4 (claim C9).

Each cv.Mat allocated during one happy-path run (sheet found, object
found) is a Buf.  The run is a straight-line trace of events in program
order: alloc when a Mat is created, free when .delete() is called inline,
and reg when the Mat is assigned to one of the variables checked by the
finally block (lines 651-665).  A failure that propagates after the first
k events runs only the finally block, which deletes exactly the registered
buffers; so a buffer allocated in the first k events leaks iff it was
neither freed nor registered among them. -/

inductive Buf
  | srcM | grayM | edgesM | blurredPreM | contoursM | hierarchyM | approxM
  | a4ContourM | warpedM | warpedGrayM | equalizedM | threshM | adaptiveThreshM
  | blurredObjM | warpedEdgesM | combined1M | combinedM | kernelM | closedM
  | objectContoursM | objectHierarchyM | objCloneM | resultM | contoursVecM
deriving DecidableEq, Repr

inductive BufEvent
  | alloc (b : Buf)
  | free (b : Buf)
  | reg (b : Buf)
deriving DecidableEq, Repr

open Buf BufEvent in
/-- The happy-path event trace of detectObjectOnA4: image load, the
preprocess helper, contour tracing, one accepted sheet iteration, the crop,
the three segmentations, fusion, closing, object tracing, one accepted
object iteration, and drawing.  Event 23 is the allocation of the
adaptiveThresh Mat, immediately before cv.adaptiveThreshold runs. -/
def detectObjectTrace : List BufEvent :=
  [alloc srcM, reg srcM,
   alloc grayM, alloc edgesM, alloc blurredPreM, free blurredPreM,
   reg grayM, reg edgesM,
   alloc contoursM, reg contoursM, alloc hierarchyM, reg hierarchyM,
   alloc approxM, alloc a4ContourM, reg a4ContourM, free approxM,
   alloc warpedM, reg warpedM,
   alloc warpedGrayM, reg warpedGrayM,
   alloc equalizedM,
   alloc threshM,
   alloc adaptiveThreshM,
   alloc blurredObjM, alloc warpedEdgesM, reg warpedEdgesM,
   free blurredObjM, free equalizedM,
   alloc combined1M, alloc combinedM, free combined1M, free adaptiveThreshM,
   alloc kernelM, alloc closedM, reg closedM, free kernelM, free combinedM,
   alloc objectContoursM, reg objectContoursM,
   alloc objectHierarchyM, reg objectHierarchyM,
   alloc objCloneM,
   alloc resultM,
   alloc contoursVecM, free contoursVecM, free objCloneM,
   free resultM, free threshM]

/-- A buffer leaks for a given executed prefix when it was allocated but,
by the time control reaches the finally block, has neither been deleted
inline nor registered with a finally-checked variable. -/
def isLeaked (es : List BufEvent) (b : Buf) : Bool :=
  decide (BufEvent.alloc b ∈ es) &&
  !(decide (BufEvent.free b ∈ es)) &&
  !(decide (BufEvent.reg b ∈ es))

/-- C9 (code bug): if cv.adaptiveThreshold throws (the trace stops after
event 23), the thresh, equalized and adaptiveThresh Mats are allocated but
neither deleted nor visible to the finally block, so they leak; on the
complete happy path every allocated Mat is freed or registered (in
particular those three), showing the leak is specific to the failure
path. -/
theorem claimC9_buffer_leak :
    isLeaked (detectObjectTrace.take 23) Buf.threshM = true ∧
    isLeaked (detectObjectTrace.take 23) Buf.equalizedM = true ∧
    isLeaked (detectObjectTrace.take 23) Buf.adaptiveThreshM = true ∧
    isLeaked detectObjectTrace Buf.threshM = false ∧
    isLeaked detectObjectTrace Buf.equalizedM = false ∧
    isLeaked detectObjectTrace Buf.adaptiveThreshM = false := by
  decide

end GridfinityMeasure
